import Mathlib

/-!
# Verification of the INT 13 disk-emulation core
  (src/src/arch/x86/interface/pcbios/int13.c)

A shallow embedding of the INT 13 BIOS disk-service emulation module.
Machine integers are modelled as `Nat` with explicit masking (`&&& 0xff`,
`% 2^32`, ...) at the points where the C types truncate; C functions that
return an `int` status become functions returning `Int` (negative = error,
following the source's convention); out-parameters become returned values;
fallible helpers return `Except Int _`.

External collaborators (the block-device layer `sandev_read`/`sandev_write`/
`sandev_reset`, `register_sandev`, `malloc`, ...) are modelled as explicit
result parameters bundled in environment records, since only their interface
boundary is specified.  Values that live in headers which are not part of the
given sources (include/int13.h, ipxe/acpi.h, ...) are modelled from the spec
and carry a doc comment saying so.
-/

set_option autoImplicit false

namespace Int13

/-! ## Constants

Modelled from the spec: these numeric codes live in include/int13.h, which is
not among the given sources.  Only their distinctness matters to the claims:
the spec names the statuses Invalid-Request, I/O-Error (read error) and
Reset-Failed, and fixes the legacy block size at 512 bytes. -/

/-- Modelled from the spec: the legacy fixed block size (`INT13_BLKSIZE`). -/
def INT13_BLKSIZE : Nat := 512

/-- Modelled from the spec: the Invalid-Request status code (`INT13_STATUS_INVALID`). -/
def INT13_STATUS_INVALID : Int := 0x01

/-- Modelled from the spec: the I/O-error status code (`INT13_STATUS_READ_ERROR`). -/
def INT13_STATUS_READ_ERROR : Int := 0x04

/-- Modelled from the spec: the Reset-Failed status code (`INT13_STATUS_RESET_FAILED`). -/
def INT13_STATUS_RESET_FAILED : Int := 0x05

/-- Modelled from the spec: INT 13 command numbers (include/int13.h). -/
def INT13_RESET : Nat := 0x00

/-- Modelled from the spec: get status of last operation. -/
def INT13_GET_LAST_STATUS : Nat := 0x01

/-- Modelled from the spec: legacy read sectors. -/
def INT13_READ_SECTORS : Nat := 0x02

/-- Modelled from the spec: legacy write sectors. -/
def INT13_WRITE_SECTORS : Nat := 0x03

/-- Modelled from the spec: get drive parameters. -/
def INT13_GET_PARAMETERS : Nat := 0x08

/-- Modelled from the spec: get disk type. -/
def INT13_GET_DISK_TYPE : Nat := 0x15

/-- Modelled from the spec: extensions installation check. -/
def INT13_EXTENSION_CHECK : Nat := 0x41

/-- Modelled from the spec: extended read. -/
def INT13_EXTENDED_READ : Nat := 0x42

/-- Modelled from the spec: extended write. -/
def INT13_EXTENDED_WRITE : Nat := 0x43

/-- Modelled from the spec: extended verify (always unsupported). -/
def INT13_EXTENDED_VERIFY : Nat := 0x44

/-- Modelled from the spec: extended seek (no-op success). -/
def INT13_EXTENDED_SEEK : Nat := 0x47

/-- Modelled from the spec: get extended parameters. -/
def INT13_GET_EXTENDED_PARAMETERS : Nat := 0x48

/-- Modelled from the spec: get/terminate CD-ROM emulation status. -/
def INT13_CDROM_STATUS_TERMINATE : Nat := 0x4b

/-- Modelled from the spec: read CD-ROM boot catalog. -/
def INT13_CDROM_READ_BOOT_CATALOG : Nat := 0x4d

/-- Modelled from the spec: floppy drive type code `INT13_FDD_TYPE_1M44`. -/
def INT13_FDD_TYPE_1M44 : Nat := 0x04

/-- Modelled from the spec: disk type code for floppies (`INT13_DISK_TYPE_FDD`). -/
def INT13_DISK_TYPE_FDD : Int := 0x01

/-- Modelled from the spec: disk type code for hard disks (`INT13_DISK_TYPE_HDD`). -/
def INT13_DISK_TYPE_HDD : Int := 0x03

/-- Modelled from the spec: extensions capability bit, linear addressing. -/
def INT13_EXTENSION_LINEAR : Nat := 0x01

/-- Modelled from the spec: extensions capability bit, EDD support. -/
def INT13_EXTENSION_EDD : Nat := 0x04

/-- Modelled from the spec: extensions capability bit, 64-bit addressing. -/
def INT13_EXTENSION_64BIT : Nat := 0x08

/-- Modelled from the spec: extensions version code 3.0. -/
def INT13_EXTENSION_VER_3_0 : Int := 0x30

/-- Modelled from the spec: POSIX-style error numbers (errno.h is outside the
given sources); iPXE status codes are negated errno values, so only
positivity of the magnitude matters. -/
def ENOMEM : Int := 12

/-- Modelled from the spec: arena-full error number. -/
def ENOSPC : Int := 28

/-! ## Data model (struct int13_data, struct san_device) -/

/-- INT 13 SAN device private data (`struct int13_data`). -/
structure Int13Data where
  /-- BIOS natural drive number (0x00-0xff). -/
  natural_drive : Nat
  /-- Number of cylinders. -/
  cylinders : Nat
  /-- Number of heads. -/
  heads : Nat
  /-- Number of sectors per track. -/
  sectors_per_track : Nat
  /-- Address of El Torito boot catalog (if any); 0 = none. -/
  boot_catalog : Nat
  /-- Status of last operation. -/
  last_status : Int
deriving DecidableEq

/-- The part of `struct san_device` that this module reads: assigned drive
number, CD-ROM flag, capacity and block size (the latter two stand for the
block-device collaborator calls `sandev_capacity` / `sandev_blksize`), plus
the INT 13 private data. -/
structure SanDevice where
  drive : Nat
  is_cdrom : Bool
  capacity : Nat
  blksize : Nat
  priv : Int13Data
deriving DecidableEq

/-- `int13_capacity32`: SAN device capacity limited (capped) to 32 bits. -/
def int13_capacity32 (sandev : SanDevice) : Nat :=
  if sandev.capacity ≤ 0xffffffff then sandev.capacity else 0xffffffff

/-- `int13_is_fdd`: test if SAN device is a floppy disk drive (bit 7 clear). -/
def int13_is_fdd (sandev : SanDevice) : Bool :=
  sandev.drive &&& 0x80 = 0

/-! ## Register file

`struct i386_all_regs`: the 16-bit registers of the emulated call surface.
Byte registers are halves of the word registers, so byte reads and writes
are defined through masking/shifting of the word values. -/

/-- The register file of one INT 13 call. -/
structure Regs where
  ax : Nat
  bx : Nat
  cx : Nat
  dx : Nat
  si : Nat
  di : Nat
  es : Nat
  ds : Nat
deriving DecidableEq

/-- Low byte of ax (`al`). -/
def Regs.al (r : Regs) : Nat := r.ax &&& 0xff

/-- High byte of ax (`ah`). -/
def Regs.ah (r : Regs) : Nat := (r.ax >>> 8) &&& 0xff

/-- Low byte of bx (`bl`). -/
def Regs.bl (r : Regs) : Nat := r.bx &&& 0xff

/-- Low byte of cx (`cl`). -/
def Regs.cl (r : Regs) : Nat := r.cx &&& 0xff

/-- High byte of cx (`ch`). -/
def Regs.ch (r : Regs) : Nat := (r.cx >>> 8) &&& 0xff

/-- Low byte of dx (`dl`). -/
def Regs.dl (r : Regs) : Nat := r.dx &&& 0xff

/-- High byte of dx (`dh`). -/
def Regs.dh (r : Regs) : Nat := (r.dx >>> 8) &&& 0xff

/-- Store a byte into `ah` (assignment `ix86->regs.ah = v`). -/
def Regs.setAh (r : Regs) (v : Nat) : Regs :=
  { r with ax := (r.ax &&& 0xff) ||| ((v &&& 0xff) <<< 8) }

/-- Store a byte into `dl` (assignment `ix86->regs.dl = v`). -/
def Regs.setDl (r : Regs) (v : Nat) : Regs :=
  { r with dx := (r.dx &&& 0xff00) ||| (v &&& 0xff) }

/-- Store a byte into `bl`. -/
def Regs.setBl (r : Regs) (v : Nat) : Regs :=
  { r with bx := (r.bx &&& 0xff00) ||| (v &&& 0xff) }

/-- Store a byte into `ch`. -/
def Regs.setCh (r : Regs) (v : Nat) : Regs :=
  { r with cx := (r.cx &&& 0xff) ||| ((v &&& 0xff) <<< 8) }

/-- Store a byte into `cl`. -/
def Regs.setCl (r : Regs) (v : Nat) : Regs :=
  { r with cx := (r.cx &&& 0xff00) ||| (v &&& 0xff) }

/-- Store a byte into `dh`. -/
def Regs.setDh (r : Regs) (v : Nat) : Regs :=
  { r with dx := (r.dx &&& 0xff) ||| ((v &&& 0xff) <<< 8) }

/-- The CPU flags this module touches: carry (error indicator) and the
overflow flag that tells the assembly wrapper not to chain. -/
structure Flags where
  cf : Bool
  ofl : Bool
deriving DecidableEq

/-! ## Block I/O requests

A call into the block-device collaborator `sandev_read`/`sandev_write` is
recorded as an `IoReq`; the collaborator itself is a function parameter
returning its status code. -/

/-- A data buffer address: either a real-mode segment:offset pair
(`real_to_virt`) or a flat physical address (`phys_to_virt`). -/
inductive Buffer where
  | seg (segment offset : Nat)
  | phys (address : Nat)
deriving DecidableEq

/-- One block-device read or write request: the arguments handed to
`sandev_rw ( sandev, lba, count, buffer )`. -/
structure IoReq where
  lba : Nat
  count : Nat
  buffer : Buffer
deriving DecidableEq

/-! ## Legacy read / write (int13_rw_sectors) -/

/-- Decode the 10-bit cylinder number:
`( ( ( ix86->regs.cl & 0xc0 ) << 2 ) | ix86->regs.ch )`. -/
def int13_decode_cylinder (regs : Regs) : Nat :=
  ((regs.cl &&& 0xc0) <<< 2) ||| regs.ch

/-- Decode the head number: `ix86->regs.dh`. -/
def int13_decode_head (regs : Regs) : Nat :=
  regs.dh

/-- Decode the 1-based sector number: `( ix86->regs.cl & 0x3f )`. -/
def int13_decode_sector (regs : Regs) : Nat :=
  regs.cl &&& 0x3f

/-- The C/H/S to LBA translation of `int13_rw_sectors`:
`lba = ( ( ( ( cylinder * int13->heads ) + head ) * int13->sectors_per_track ) + sector - 1 )`. -/
def int13_chs_lba (int13 : Int13Data) (cylinder head sector : Nat) : Nat :=
  ((cylinder * int13.heads + head) * int13.sectors_per_track) + sector - 1

/-- `int13_rw_sectors`: legacy read/write.  Returns the status code together
with the block-device request issued, if any (`none` = no I/O reached the
block device).  `rw` is the `sandev_rw` collaborator's status, as a function
of the request arguments. -/
def int13_rw_sectors (sandev : SanDevice) (regs : Regs)
    (rw : Nat → Nat → Buffer → Int) : Int × Option IoReq :=
  if sandev.blksize ≠ INT13_BLKSIZE then
    (-INT13_STATUS_INVALID, none)
  else
    let cylinder := int13_decode_cylinder regs
    let head := int13_decode_head regs
    let sector := int13_decode_sector regs
    if cylinder ≥ sandev.priv.cylinders ∨ head ≥ sandev.priv.heads ∨
        sector < 1 ∨ sector > sandev.priv.sectors_per_track then
      (-INT13_STATUS_INVALID, none)
    else
      let lba := int13_chs_lba sandev.priv cylinder head sector
      let count := regs.al
      let buffer := Buffer.seg (regs.es &&& 0xffff) (regs.bx &&& 0xffff)
      if rw lba count buffer ≠ 0 then
        (-INT13_STATUS_READ_ERROR, some (IoReq.mk lba count buffer))
      else
        (0, some (IoReq.mk lba count buffer))

/-! ## Extended read / write (int13_extended_rw)

The caller supplies a disk address packet at ds:si.  The packet memory is
modelled as a byte function `mem : Nat → Nat` giving the byte at ds:si+i;
the handler reads the declared `bufsize`, zeroes a local
`struct int13_disk_address` (`memset`), and copies in `bufsize` bytes
(`copy_from_real`), so bytes at offsets ≥ bufsize read as zero. -/

/-- Modelled from the spec: the offset of the 64-bit physical buffer pointer
in `struct int13_disk_address` (include/int13.h is not among the given
sources).  Layout: bufsize at byte 0, count byte at 2, buffer
offset:segment at 4:6, 64-bit LBA at 8, 64-bit physical buffer at 16,
32-bit long count at 24; total size 32. -/
def int13_disk_address_buffer_phys : Nat := 16

/-- Modelled from the spec: offset of the 32-bit extended (long) count. -/
def int13_disk_address_long_count : Nat := 24

/-- Modelled from the spec: total size of `struct int13_disk_address`. -/
def int13_disk_address_size : Nat := 32

/-- The effective bytes of the local disk-address structure after
`memset ( &addr, 0, sizeof ( addr ) )` followed by
`copy_from_real ( &addr, ds, si, bufsize )`. -/
def int13_addr_byte (mem : Nat → Nat) (bufsize i : Nat) : Nat :=
  if i < bufsize then mem i % 256 else 0

/-- Little-endian read of `n` bytes starting at offset `off`. -/
def int13_read_le (b : Nat → Nat) (off : Nat) : Nat → Nat
  | 0 => 0
  | n + 1 => b off + 256 * int13_read_le b (off + 1) n

/-- The decoded `struct int13_disk_address` (one field per C struct field). -/
structure Int13DiskAddress where
  bufsize : Nat
  count : Nat
  buffer_offset : Nat
  buffer_segment : Nat
  lba : Nat
  buffer_phys : Nat
  long_count : Nat
deriving DecidableEq

/-- Decode the local `addr` variable of `int13_extended_rw` from the packet
memory and the declared buffer size. -/
def int13_decode_addr (mem : Nat → Nat) (bufsize : Nat) : Int13DiskAddress :=
  let b := int13_addr_byte mem bufsize
  { bufsize := b 0
    count := b 2
    buffer_offset := int13_read_le b 4 2
    buffer_segment := int13_read_le b 6 2
    lba := int13_read_le b 8 8
    buffer_phys := int13_read_le b 16 8
    long_count := int13_read_le b 24 4 }

/-- The data-buffer decode of `int13_extended_rw`: physical pointer when the
count byte is 0xff or segment and offset are both 0xffff, else the
segment:offset pair. -/
def int13_ext_buffer (addr : Int13DiskAddress) : Buffer :=
  if addr.count = 0xff ∨ (addr.buffer_segment = 0xffff ∧ addr.buffer_offset = 0xffff) then
    Buffer.phys addr.buffer_phys
  else
    Buffer.seg addr.buffer_segment addr.buffer_offset

/-- The transfer-count decode of `int13_extended_rw`: a byte ≤ 0x7f is the
literal count, 0xff selects the long count, anything else is invalid. -/
def int13_ext_count (addr : Int13DiskAddress) : Option Nat :=
  if addr.count ≤ 0x7f then some addr.count
  else if addr.count = 0xff then some addr.long_count
  else none

/-- The outcome of `int13_extended_rw`: status code, the block-device request
issued (if any), and whether a zero count was written back into the caller's
packet (the `put_real` on the I/O failure path). -/
structure ExtRwResult where
  status : Int
  request : Option IoReq
  wroteZeroCount : Bool
deriving DecidableEq

/-- `int13_extended_rw`: extended read/write from a disk address packet.
`mem i` is the byte of the packet at ds:si+i; `rw` is the block-device
collaborator's status for the issued request. -/
def int13_extended_rw (sandev : SanDevice) (mem : Nat → Nat)
    (rw : Nat → Nat → Buffer → Int) : ExtRwResult :=
  if int13_is_fdd sandev then
    { status := -INT13_STATUS_INVALID, request := none, wroteZeroCount := false }
  else
    let bufsize := mem 0 % 256
    if bufsize < int13_disk_address_buffer_phys then
      { status := -INT13_STATUS_INVALID, request := none, wroteZeroCount := false }
    else
      let addr := int13_decode_addr mem bufsize
      let buffer := int13_ext_buffer addr
      match int13_ext_count addr with
      | none =>
          { status := -INT13_STATUS_INVALID, request := none, wroteZeroCount := false }
      | some count =>
          let req : IoReq := { lba := addr.lba, count := count, buffer := buffer }
          if rw addr.lba count buffer ≠ 0 then
            { status := -INT13_STATUS_READ_ERROR, request := some req, wroteZeroCount := true }
          else
            { status := 0, request := some req, wroteZeroCount := false }

/-! ## Geometry inference -/

/-- Recognised floppy disk geometries (`int13_fdd_geometries`), as
(cylinders, heads, sectors) triples in source order.  The
`INT13_FDD_GEOMETRY` packing macro lives in the missing include/int13.h;
only the three decoded components are used by the code. -/
def int13_fdd_geometries : List (Nat × Nat × Nat) :=
  [ (40, 1, 8), (40, 1, 9), (40, 2, 8), (40, 1, 9),
    (80, 2, 8), (80, 2, 9), (80, 2, 15), (80, 2, 18),
    (80, 2, 20), (80, 2, 21), (82, 2, 21), (83, 2, 21),
    (80, 2, 22), (80, 2, 23), (80, 2, 24), (80, 2, 36),
    (80, 2, 39), (80, 2, 40), (80, 2, 44), (80, 2, 48) ]

/-- The table scan of `int13_guess_geometry_fdd`: the first geometry whose
cylinders×heads×sectors equals the block count gives (heads, sectors);
otherwise assume a partial 1440K image, heads=2 sectors=18. -/
def int13_fdd_find (blocks : Nat) : Nat × Nat :=
  match int13_fdd_geometries.find? (fun g => g.1 * g.2.1 * g.2.2 == blocks) with
  | some g => (g.2.1, g.2.2)
  | none => (2, 18)

/-- `int13_guess_geometry_fdd`: guess floppy geometry from the disk size.
`unsigned int blocks = sandev_capacity ( sandev )` truncates the 64-bit
capacity to 32 bits.  Returns (heads, sectors); the C function
unconditionally returns status 0. -/
def int13_guess_geometry_fdd (sandev : SanDevice) : Except Int (Nat × Nat) :=
  Except.ok (int13_fdd_find (sandev.capacity % 4294967296))

/-- One entry of the partition table, as read by
`int13_guess_geometry_hdd`.  Modelled from the spec: the layout of
`struct partition_table_entry` and the `PART_CYLINDER`/`PART_HEAD`/
`PART_SECTOR` decoding macros live in headers outside the given sources;
each CHS address is three raw bytes (head byte, packed sector/cylinder-high
byte, cylinder-low byte). -/
structure PartitionEntry where
  ptype : Nat
  chs_start_head : Nat
  chs_start_b1 : Nat
  chs_start_b2 : Nat
  chs_end_head : Nat
  chs_end_b1 : Nat
  chs_end_b2 : Nat
  start : Nat
deriving DecidableEq

/-- Modelled from the spec: `PART_CYLINDER` — 10-bit cylinder from the packed
CHS bytes. -/
def int13_part_cylinder (b1 b2 : Nat) : Nat :=
  ((b1 &&& 0xc0) <<< 2) ||| (b2 &&& 0xff)

/-- Modelled from the spec: `PART_HEAD`. -/
def int13_part_head (b0 : Nat) : Nat := b0 &&& 0xff

/-- Modelled from the spec: `PART_SECTOR` — low six bits. -/
def int13_part_sector (b1 : Nat) : Nat := b1 &&& 0x3f

/-- One iteration of the partition-table scan of `int13_guess_geometry_hdd`,
acting on the running (heads, sectors) guess.  The quotient
`( partition->start + 1 - start_sector ) / start_head` is 32-bit unsigned
arithmetic, hence the mod-2^32 subtraction. -/
def int13_hdd_scan_step (hs : Nat × Nat) (p : PartitionEntry) : Nat × Nat :=
  if p.ptype = 0 then hs
  else
    let start_cylinder := int13_part_cylinder p.chs_start_b1 p.chs_start_b2
    let start_head := int13_part_head p.chs_start_head
    let start_sector := int13_part_sector p.chs_start_b1
    let sectors1 :=
      if start_cylinder = 0 ∧ start_head ≠ 0 then
        ((p.start % 4294967296 + 1 + 4294967296 - start_sector) % 4294967296) / start_head
      else hs.2
    let end_head := int13_part_head p.chs_end_head
    let end_sector := int13_part_sector p.chs_end_b1
    let heads1 := if end_head + 1 > hs.1 then end_head + 1 else hs.1
    let sectors2 := if end_sector > sectors1 then end_sector else sectors1
    (heads1, sectors2)

/-- `int13_guess_geometry_hdd`: guess hard-disk geometry by inspecting the
partition table.  The read of block 0 and the four partition entries are the
block-device collaborator's data, supplied as arguments; on read failure the
underlying status is propagated.  Defaults are 255 heads / 63 sectors. -/
def int13_guess_geometry_hdd (mbr_read_rc : Int) (partitions : List PartitionEntry) :
    Except Int (Nat × Nat) :=
  if mbr_read_rc ≠ 0 then Except.error mbr_read_rc
  else
    let hs := (partitions.take 4).foldl int13_hdd_scan_step (0, 0)
    Except.ok (if hs.1 = 0 then 255 else hs.1, if hs.2 = 0 then 63 else hs.2)

/-- `int13_guess_geometry`: fill in any unconfigured geometry field of the
drive's private data (a zero field means "not explicitly configured"); never
overwrites a nonzero field.  Cylinders, if unfixed, come from the 32-bit
capped capacity divided by heads×sectors, capped at 1024. -/
def int13_guess_geometry (mbr_read_rc : Int) (partitions : List PartitionEntry)
    (sandev : SanDevice) (int13 : Int13Data) : Except Int Int13Data :=
  match (if int13_is_fdd sandev then int13_guess_geometry_fdd sandev
         else int13_guess_geometry_hdd mbr_read_rc partitions) with
  | Except.error rc => Except.error rc
  | Except.ok guessed =>
      let heads := if int13.heads = 0 then guessed.1 else int13.heads
      let sectors_per_track := if int13.sectors_per_track = 0 then guessed.2
                               else int13.sectors_per_track
      let cylinders :=
        if int13.cylinders = 0 then
          let blocks := int13_capacity32 sandev
          let blocks_per_cyl := heads * sectors_per_track
          let c := blocks / blocks_per_cyl
          if c > 1024 then 1024 else c
        else int13.cylinders
      Except.ok { int13 with
                    heads := heads
                    sectors_per_track := sectors_per_track
                    cylinders := cylinders }

/-! ## BIOS drive counts (int13_sync_num_drives / int13_check_num_drives)

The firmware drive-count state: the BIOS Data Area equipment word and
hard-disk count (the globally addressable locations), plus the module's
cached copies `equipment_word`, `num_drives` and the derived `num_fdds`. -/

/-- Firmware-wide drive-count state. -/
structure BiosState where
  /-- BIOS Data Area equipment word at 40:10. -/
  bda_equipment : Nat
  /-- BIOS Data Area number of hard disks at 40:75. -/
  bda_num_drives : Nat
  /-- Cached copy of the equipment word. -/
  equipment_word : Nat
  /-- Cached number of hard disk drives. -/
  num_drives : Nat
  /-- Cached number of floppy disk drives (derived from the equipment word). -/
  num_fdds : Nat
deriving DecidableEq

/-- One drive's contribution to the drive counters: raise the floppy or
hard-disk counter to cover both the assigned and the natural drive number. -/
def int13_sync_step (acc : Nat × Nat) (sandev : SanDevice) : Nat × Nat :=
  let max_drive := if sandev.drive < sandev.priv.natural_drive
                   then sandev.priv.natural_drive else sandev.drive
  let required := (max_drive &&& 0x7f) + 1
  if int13_is_fdd sandev then
    (acc.1, if acc.2 < required then required else acc.2)
  else
    (if acc.1 < required then required else acc.1, acc.2)

/-- `int13_sync_num_drives`: read the BIOS drive counts, raise them to cover
every registered SAN device, and write them back (the floppy count is
re-encoded into bits 0 and 7:6 of the equipment word; mask 0xff3e clears
those bits of the 16-bit word). -/
def int13_sync_num_drives (sandevs : List SanDevice) (b : BiosState) : BiosState :=
  let ew := b.bda_equipment &&& 0xffff
  let nd := b.bda_num_drives &&& 0xff
  let nf := if ew &&& 0x0001 ≠ 0 then ((ew >>> 6) &&& 0x3) + 1 else 0
  let counts := sandevs.foldl int13_sync_step (nd, nf)
  let ew1 := ew &&& 0xff3e
  let ew2 := if counts.2 ≠ 0 then ew1 ||| (0x0001 ||| (((counts.2 - 1) &&& 0x3) <<< 6))
             else ew1
  { bda_equipment := ew2
    bda_num_drives := counts.1
    equipment_word := ew2
    num_drives := counts.1
    num_fdds := counts.2 }

/-- `int13_check_num_drives`: re-synchronise iff the live BIOS Data Area
values differ from the cached copies. -/
def int13_check_num_drives (sandevs : List SanDevice) (b : BiosState) : BiosState :=
  if b.bda_equipment &&& 0xffff ≠ b.equipment_word ∨
     b.bda_num_drives &&& 0xff ≠ b.num_drives then
    int13_sync_num_drives sandevs b
  else b

/-! ## Drive hook / unhook (int13_hook)

Collaborator outcomes (alloc_sandev, register_sandev, malloc, the block reads
behind El Torito parsing and geometry guessing) and the would-be properties
of the new SAN device are bundled into a `HookEnv`.  The geometry fields a
drive starts with are the explicitly configured ones (zero = unconfigured);
explicit configuration itself happens outside this module. -/

/-- Environment of one `int13_hook` call. -/
structure HookEnv where
  /-- `alloc_sandev` succeeds. -/
  alloc_ok : Bool
  /-- `register_sandev` status (0 = success, negative error otherwise). -/
  register_rc : Int
  /-- `malloc` of the scratch area succeeds. -/
  malloc_ok : Bool
  /-- Status of the El Torito boot-record read (`sandev_read ( ELTORITO_LBA )`). -/
  eltorito_read_rc : Int
  /-- The read sector matches the El Torito boot-check descriptor. -/
  eltorito_match : Bool
  /-- `boot->sector`: the boot-catalog LBA from the descriptor. -/
  eltorito_sector : Nat
  /-- Status of the partition-table read in `int13_guess_geometry_hdd`. -/
  mbr_read_rc : Int
  /-- The partition-table entries read from block 0. -/
  partitions : List PartitionEntry
  /-- The new device is a CD-ROM. -/
  is_cdrom : Bool
  /-- `sandev_capacity` of the new device. -/
  capacity : Nat
  /-- `sandev_blksize` of the new device. -/
  blksize : Nat
  /-- Explicitly configured cylinder count (0 = unconfigured). -/
  init_cylinders : Nat
  /-- Explicitly configured head count (0 = unconfigured). -/
  init_heads : Nat
  /-- Explicitly configured sectors per track (0 = unconfigured). -/
  init_sectors : Nat

/-- `int13_parse_eltorito`: read and parse El Torito parameters.  On a
successful read, record the boot catalog location iff the boot-record
volume descriptor matches; a failed read propagates its status. -/
def int13_parse_eltorito (env : HookEnv) (int13 : Int13Data) : Except Int Int13Data :=
  if env.eltorito_read_rc ≠ 0 then Except.error env.eltorito_read_rc
  else if env.eltorito_match then Except.ok { int13 with boot_catalog := env.eltorito_sector }
  else Except.ok int13

/-- The registry and resource state that `int13_hook`/`int13_unhook` act on:
the SAN device list, the BIOS counters, whether the INT 13 vector is hooked,
and a count of outstanding heap allocations (SAN device references and the
scratch buffer), used to state that failure paths release everything. -/
structure HookState where
  sandevs : List SanDevice
  bios : BiosState
  vector_hooked : Bool
  allocs : Nat

/-- `unregister_sandev`: remove the (first) registered device with the given
drive number. -/
def int13_unregister (drive : Nat) : List SanDevice → List SanDevice
  | [] => []
  | s :: rest => if s.drive = drive then rest else s :: int13_unregister drive rest

/-- `int13_hook`: register a drive with the INT 13 subsystem.  Returns the
drive number on success or a negative error, together with the new state.
Mirrors the C control flow, including its error-unwind labels; note that on
the scratch-allocation failure path the C returns the stale `rc` left over
from the successful `register_sandev`, which is 0. -/
def int13_hook (env : HookEnv) (drive0 : Nat) (st : HookState) : Int × HookState :=
  let bios1 := int13_sync_num_drives st.sandevs st.bios
  let need_hook := st.sandevs.isEmpty
  let natural_drive := if drive0 &&& 0x80 ≠ 0 then bios1.num_drives ||| 0x80
                       else bios1.num_fdds
  let drive := if drive0 &&& 0x7f = 0x7f then natural_drive else drive0
  if env.alloc_ok = false then
    (-ENOMEM, { st with bios := bios1 })
  else
    let priv0 : Int13Data :=
      { natural_drive := natural_drive
        cylinders := env.init_cylinders
        heads := env.init_heads
        sectors_per_track := env.init_sectors
        boot_catalog := 0
        last_status := 0 }
    let sandev0 : SanDevice :=
      { drive := drive
        is_cdrom := env.is_cdrom
        capacity := env.capacity
        blksize := env.blksize
        priv := priv0 }
    let allocs1 := st.allocs + 1
    if env.register_rc ≠ 0 then
      -- err_register: sandev_put
      (env.register_rc, { st with bios := bios1, allocs := allocs1 - 1 })
    else
      let sandevs1 := sandev0 :: st.sandevs
      if env.malloc_ok = false then
        -- err_alloc_scratch: unregister_sandev, sandev_put; rc is still the 0
        -- returned by register_sandev
          (0, { st with
              bios := bios1
              sandevs := int13_unregister drive sandevs1
              allocs := allocs1 - 1 })
      else
        let allocs2 := allocs1 + 1
        match (if env.is_cdrom then int13_parse_eltorito env priv0
               else Except.ok priv0) with
        | Except.error rc =>
            -- err_parse_eltorito: free scratch, unregister, put
            (rc, { st with
                   bios := bios1
                   sandevs := int13_unregister drive sandevs1
                   allocs := allocs2 - 2 })
        | Except.ok priv1 =>
            let sandev1 := { sandev0 with priv := priv1 }
            match (if env.blksize = INT13_BLKSIZE then
                     int13_guess_geometry env.mbr_read_rc env.partitions sandev1 priv1
                   else Except.ok priv1) with
            | Except.error rc =>
                -- err_guess_geometry: free scratch, unregister, put
                (rc, { st with
                       bios := bios1
                       sandevs := int13_unregister drive sandevs1
                       allocs := allocs2 - 2 })
            | Except.ok priv2 =>
                let sandev2 := { sandev1 with priv := priv2 }
                let sandevs2 := sandev2 :: st.sandevs
                let hooked := if need_hook then true else st.vector_hooked
                let bios2 := int13_sync_num_drives sandevs2 bios1
                (Int.ofNat drive,
                 { sandevs := sandevs2
                   bios := bios2
                   vector_hooked := hooked
                   allocs := allocs2 - 1 })

/-! ## The INT 13 dispatcher (int13)

Environment of one interrupt call: the collaborator outcomes the handlers
may consult.  Caller-memory writes performed by handlers (parameter blocks,
specification packets) are modelled where a claim needs them (the
zero-count write-back flag of `int13_extended_rw`); the dispatcher-level
state tracks the register file, the flags, the drive registry and the BIOS
counters. -/

/-- Collaborator outcomes for one dispatched call. -/
structure CallEnv where
  /-- `sandev_reset` status. -/
  reset_rc : Int
  /-- `sandev_read` status as a function of (lba, count, buffer). -/
  read_rw : Nat → Nat → Buffer → Int
  /-- `sandev_write` status as a function of (lba, count, buffer). -/
  write_rw : Nat → Nat → Buffer → Int
  /-- Byte i of the caller's packet at ds:si (disk address packet, parameter
  buffer, or boot-catalog command, depending on the command). -/
  dap_mem : Nat → Nat
  /-- Status of the boot-catalog read issued by INT 13,4d. -/
  catalog_read_rc : Int

/-- Modelled from the spec: offset of the device-path-translation sub-record
(`dpte`) in `struct int13_disk_parameters` — the minimum declared buffer
size accepted by INT 13,48. -/
def int13_disk_parameters_dpte : Nat := 26

/-- Modelled from the spec: the real-mode data segment `rm_ds` and the
offset of the dummy floppy parameter table, returned by INT 13,08 for
floppy drives.  Their runtime values are link-time constants of no
consequence to any claim. -/
def int13_rm_ds : Nat := 0

/-- Modelled from the spec: offset of `int13_fdd_params` in the data segment. -/
def int13_fdd_params_offset : Nat := 0

/-- `int13_reset` (INT 13,00): reset the SAN device. -/
def int13_reset_cmd (env : CallEnv) : Int :=
  if env.reset_rc ≠ 0 then -INT13_STATUS_RESET_FAILED else 0

/-- `int13_get_parameters` (INT 13,08): report maximum cylinder/head numbers
(count − 1) but `sectors_per_track` itself as "maximum sector" (sic in the
source), plus drive counts and, for floppies, a drive type and dummy
parameter-table pointer. -/
def int13_get_parameters (bios : BiosState) (sandev : SanDevice) (regs : Regs) :
    Int × Regs :=
  if sandev.blksize ≠ INT13_BLKSIZE then
    (-INT13_STATUS_INVALID, regs)
  else
    let max_cylinder := sandev.priv.cylinders - 1
    let max_head := sandev.priv.heads - 1
    let max_sector := sandev.priv.sectors_per_track
    let regs1 := regs.setCh (max_cylinder &&& 0xff)
    let regs2 := regs1.setCl (((max_cylinder >>> 8) <<< 6) ||| max_sector)
    let regs3 := regs2.setDh max_head
    let regs4 := regs3.setDl (if int13_is_fdd sandev then bios.num_fdds
                              else bios.num_drives)
    if int13_is_fdd sandev then
      let regs5 := regs4.setBl INT13_FDD_TYPE_1M44
      (0, { regs5 with es := int13_rm_ds, di := int13_fdd_params_offset })
    else
      (0, regs4)

/-- `int13_get_disk_type` (INT 13,15): the positive return value is the type
code; for hard disks cx:dx receives the 32-bit capped sector count. -/
def int13_get_disk_type (sandev : SanDevice) (regs : Regs) : Int × Regs :=
  if int13_is_fdd sandev then
    (INT13_DISK_TYPE_FDD, regs)
  else
    let blocks := int13_capacity32 sandev
    (INT13_DISK_TYPE_HDD, { regs with cx := blocks >>> 16, dx := blocks &&& 0xffff })

/-- `int13_extension_check` (INT 13,41): only for hard disks with the 0x55aa
magic; answers 0xaa55, the capability bitmap and the version code. -/
def int13_extension_check (sandev : SanDevice) (regs : Regs) : Int × Regs :=
  if regs.bx &&& 0xffff = 0x55aa ∧ int13_is_fdd sandev = false then
    (INT13_EXTENSION_VER_3_0,
     { regs with bx := 0xaa55,
                 cx := INT13_EXTENSION_LINEAR ||| INT13_EXTENSION_EDD |||
                       INT13_EXTENSION_64BIT })
  else
    (-INT13_STATUS_INVALID, regs)

/-- `int13_get_extended_parameters` (INT 13,48), status part: invalid if the
caller's declared buffer does not reach the dpte sub-record; otherwise
succeeds (a missing device-path description only shortens the record). -/
def int13_get_extended_parameters (env : CallEnv) : Int :=
  let bufsize := (env.dap_mem 0 % 256) + 256 * (env.dap_mem 1 % 256)
  if bufsize < int13_disk_parameters_dpte then -INT13_STATUS_INVALID else 0

/-- `int13_cdrom_status_terminate` (INT 13,4b): fails for non-CD-ROM drives,
otherwise returns a specification packet naming the drive. -/
def int13_cdrom_status_terminate (sandev : SanDevice) : Int :=
  if sandev.is_cdrom = false then -INT13_STATUS_INVALID else 0

/-- `int13_cdrom_read_boot_catalog` (INT 13,4d): fails without a recorded
boot catalog; otherwise reads at boot_catalog + start and reports any read
failure. -/
def int13_cdrom_read_boot_catalog (env : CallEnv) (sandev : SanDevice) : Int :=
  if sandev.priv.boot_catalog = 0 then -INT13_STATUS_INVALID
  else if env.catalog_read_rc ≠ 0 then -INT13_STATUS_READ_ERROR
  else 0

/-- The dispatcher's command switch: status and updated registers for one
command executed against one resolved drive. -/
def int13_command (env : CallEnv) (bios : BiosState) (sandev : SanDevice)
    (command : Nat) (regs : Regs) : Int × Regs :=
  if command = INT13_RESET then (int13_reset_cmd env, regs)
  else if command = INT13_GET_LAST_STATUS then (sandev.priv.last_status, regs)
  else if command = INT13_READ_SECTORS then
    ((int13_rw_sectors sandev regs env.read_rw).1, regs)
  else if command = INT13_WRITE_SECTORS then
    ((int13_rw_sectors sandev regs env.write_rw).1, regs)
  else if command = INT13_GET_PARAMETERS then int13_get_parameters bios sandev regs
  else if command = INT13_GET_DISK_TYPE then int13_get_disk_type sandev regs
  else if command = INT13_EXTENSION_CHECK then int13_extension_check sandev regs
  else if command = INT13_EXTENDED_READ then
    ((int13_extended_rw sandev env.dap_mem env.read_rw).status, regs)
  else if command = INT13_EXTENDED_WRITE then
    ((int13_extended_rw sandev env.dap_mem env.write_rw).status, regs)
  else if command = INT13_EXTENDED_VERIFY then (-INT13_STATUS_INVALID, regs)
  else if command = INT13_EXTENDED_SEEK then (0, regs)
  else if command = INT13_GET_EXTENDED_PARAMETERS then
    (int13_get_extended_parameters env, regs)
  else if command = INT13_CDROM_STATUS_TERMINATE then
    (int13_cdrom_status_terminate sandev, regs)
  else if command = INT13_CDROM_READ_BOOT_CATALOG then
    (int13_cdrom_read_boot_catalog env sandev, regs)
  else (-INT13_STATUS_INVALID, regs)

/-- The epilogue of a dispatched command: store the status as the drive's
last status, clear CF on success, place the (complemented if negative)
status in ah, and set OF so the wrapper does not chain. -/
def int13_dispatch (env : CallEnv) (bios : BiosState) (sandev : SanDevice)
    (command : Nat) (regs : Regs) (flags : Flags) :
    Regs × Flags × SanDevice :=
  let sr := int13_command env bios sandev command regs
  let status := sr.1
  let sandev1 := { sandev with priv := { sandev.priv with last_status := status } }
  let flags1 := if status < 0 then flags else { flags with cf := false }
  let statusOut := if status < 0 then -status else status
  let regs1 := sr.2.setAh statusOut.toNat
  (regs1, { flags1 with ofl := true }, sandev1)

/-- The drive-resolution loop of `int13`: find the addressed drive, remap a
natural-number access, catch wildcard CD-ROM status calls, or fall through
to the next registered drive.  Returns the registers, flags and (updated)
drive list. -/
def int13_loop (env : CallEnv) (bios : BiosState) (command bios_drive : Nat)
    (regs : Regs) (flags : Flags) : List SanDevice → Regs × Flags × List SanDevice
  | [] => (regs, flags, [])
  | sandev :: rest =>
    if bios_drive = sandev.drive then
      let d := int13_dispatch env bios sandev command regs flags
      (d.1, d.2.1, d.2.2 :: rest)
    else if bios_drive = sandev.priv.natural_drive then
      -- remap the access to this drive's natural number and return
      (regs.setDl sandev.drive, flags, sandev :: rest)
    else if (bios_drive &&& 0x7f) = 0x7f ∧ command = INT13_CDROM_STATUS_TERMINATE ∧
            sandev.is_cdrom then
      -- catch non-drive-specific CD-ROM calls
      let d := int13_dispatch env bios sandev command regs flags
      (d.1, d.2.1, d.2.2 :: rest)
    else
      let r := int13_loop env bios command bios_drive regs flags rest
      (r.1, r.2.1, sandev :: r.2.2)

/-- The state an interrupt call acts on. -/
structure DispState where
  regs : Regs
  flags : Flags
  sandevs : List SanDevice
  bios : BiosState

/-- `int13`: the INT 13 handler.  Checks the BIOS drive counts, then walks
the registered drives resolving and dispatching the call. -/
def int13_call (env : CallEnv) (s : DispState) : DispState :=
  let bios := int13_check_num_drives s.sandevs s.bios
  let command := s.regs.ah
  let bios_drive := s.regs.dl
  let r := int13_loop env bios command bios_drive s.regs s.flags s.sandevs
  { regs := r.1, flags := r.2.1, sandevs := r.2.2, bios := bios }

/-! ## Boot firmware table arena (int13_install / int13_describe) -/

/-- Maximum size of boot firmware table(s) (`XBFTAB_SIZE`). -/
def XBFTAB_SIZE : Nat := 768

/-- Alignment of boot firmware table entries (`XBFTAB_ALIGN`). -/
def XBFTAB_ALIGN : Nat := 16

/-- An ACPI description table handed to `int13_install`: its declared header
length and its raw bytes. -/
structure AcpiTable where
  length : Nat
  bytes : Nat → Nat

/-- The arena state: the `xbftab` byte array and the running used length. -/
structure Xbftab where
  mem : Nat → Nat
  used : Nat

/-- Modelled from the spec: the ACPI description header layout (ipxe/acpi.h
is not among the given sources): checksum at byte 9, oem_id at bytes 10-15,
oem_table_id at bytes 16-23. -/
def acpi_oem_id_offset : Nat := 10

/-- Modelled from the spec: offset of oem_table_id. -/
def acpi_oem_table_id_offset : Nat := 16

/-- Modelled from the spec: offset of the checksum byte. -/
def acpi_checksum_offset : Nat := 9

/-- The bytes `strncpy ( installed->oem_id, "FENSYS", 6 )` stores. -/
def int13_oem_id_byte (i : Nat) : Nat := [70, 69, 78, 83, 89, 83].getD i 0

/-- The bytes `strncpy ( installed->oem_table_id, "iPXE", 8 )` stores
(strncpy zero-pads the remainder). -/
def int13_oem_table_id_byte (i : Nat) : Nat := [105, 80, 88, 69, 0, 0, 0, 0].getD i 0

/-- The table bytes after the oem_id / oem_table_id fix-ups. -/
def int13_oem_bytes (t : AcpiTable) (i : Nat) : Nat :=
  if acpi_oem_id_offset ≤ i ∧ i < acpi_oem_id_offset + 6 then
    int13_oem_id_byte (i - acpi_oem_id_offset)
  else if acpi_oem_table_id_offset ≤ i ∧ i < acpi_oem_table_id_offset + 8 then
    int13_oem_table_id_byte (i - acpi_oem_table_id_offset)
  else t.bytes i % 256

/-- Sum of the first `n` bytes. -/
def int13_byte_sum (b : Nat → Nat) : Nat → Nat
  | 0 => 0
  | n + 1 => int13_byte_sum b n + b n

/-- Modelled from the spec: `acpi_fix_checksum` (ipxe/acpi.c is not among
the given sources) subtracts the current byte sum from the checksum byte so
that the whole table sums to zero mod 256. -/
def acpi_fix_checksum (len : Nat) (b : Nat → Nat) (i : Nat) : Nat :=
  if i = acpi_checksum_offset then
    (b acpi_checksum_offset + 256 - int13_byte_sum b len % 256) % 256
  else b i

/-- The final content installed for one table: memcpy of the caller's bytes,
oem fields overwritten, checksum fixed. -/
def int13_table_bytes (t : AcpiTable) : Nat → Nat :=
  acpi_fix_checksum t.length (int13_oem_bytes t)

/-- `int13_install`: append one ACPI table to the arena.  Rejects a table
longer than the remaining space with -ENOSPC and leaves the state
untouched; otherwise copies it at the used-length cursor and rounds the
cursor up to the next 16-byte boundary. -/
def int13_install (acpi : AcpiTable) (s : Xbftab) : Int × Xbftab :=
  let len := acpi.length
  if len > XBFTAB_SIZE - s.used then
    (-ENOSPC, s)
  else
    let content := int13_table_bytes acpi
    let mem1 := fun i => if s.used ≤ i ∧ i < s.used + len then content (i - s.used)
                         else s.mem i
    let used1 := ((s.used + len + XBFTAB_ALIGN - 1) / XBFTAB_ALIGN) * XBFTAB_ALIGN
    (0, { mem := mem1, used := used1 })

/-- The arena as `int13_describe` clears it at the start of a description
pass: all bytes zero, used length zero. -/
def xbftab_init : Xbftab :=
  { mem := fun _ => 0, used := 0 }

/-- The arena states reachable within one description pass: the cleared
arena, followed by any sequence of `int13_install` attempts (failed
attempts leave the state unchanged). -/
inductive XbftabReachable : Xbftab → Prop where
  | init : XbftabReachable xbftab_init
  | step (t : AcpiTable) (s : Xbftab) :
      XbftabReachable s → XbftabReachable (int13_install t s).2

/-! ## Concrete evaluation inputs

Closed sample devices, register files, packets and environments used to
evaluate the embedded code at specific inputs. -/

/-- A block-device collaborator that always succeeds. -/
def rw_ok : Nat → Nat → Buffer → Int := fun _ _ _ => 0

/-- A registered hard disk with geometry 100/16/63 and 512-byte blocks. -/
def devC1 : SanDevice :=
  { drive := 0x80
    is_cdrom := false
    capacity := 100800
    blksize := 512
    priv := { natural_drive := 0x80
              cylinders := 100
              heads := 16
              sectors_per_track := 63
              boot_catalog := 0
              last_status := 0 } }

/-- Registers for a legacy read of C/H/S 1/1/3, one sector, buffer 0:0. -/
def regsC1 : Regs :=
  { ax := 0x0201, bx := 0, cx := 0x0103, dx := 0x0180, si := 0, di := 0, es := 0, ds := 0 }

/-- Registers for a legacy read with sector number 0 (out of range). -/
def regsC2 : Regs :=
  { ax := 0x0201, bx := 0, cx := 0x0100, dx := 0x0180, si := 0, di := 0, es := 0, ds := 0 }

/-- A disk address packet: declared size 16, count byte 5, all else zero. -/
def memC3 : Nat → Nat := fun i => if i = 0 then 16 else if i = 2 then 5 else 0

/-- A disk address packet with declared size 32, count byte 0xff, buffer
segment:offset = 1234:5678, physical buffer pointer 0xdeadbeef and long
count 1. -/
def memC4 : Nat → Nat := fun i =>
  if i = 0 then 0x20
  else if i = 2 then 0xff
  else if i = 4 then 0x78
  else if i = 5 then 0x56
  else if i = 6 then 0x34
  else if i = 7 then 0x12
  else if i = 16 then 0xef
  else if i = 17 then 0xbe
  else if i = 18 then 0xad
  else if i = 19 then 0xde
  else if i = 24 then 0x01
  else 0

/-- A disk address packet with declared size 20 and count byte 0xff; the
bytes at offsets 16-19 (the low half of the physical buffer pointer) are
0xdeadbeef, and everything at offset ≥ 20 is outside the declared size. -/
def memC9 : Nat → Nat := fun i =>
  if i = 0 then 20
  else if i = 2 then 0xff
  else if i = 16 then 0xef
  else if i = 17 then 0xbe
  else if i = 18 then 0xad
  else if i = 19 then 0xde
  else 0

/-- A disk address packet with declared size exactly 16 (the physical-buffer
offset) and count byte 0xff; the caller's memory beyond the declared size
holds nonzero garbage. -/
def memC9b : Nat → Nat := fun i =>
  if i = 0 then 16
  else if i = 2 then 0xff
  else if i < 32 then 0xaa
  else 0

/-- A registered drive whose natural number differs from its assigned one:
assigned 0x81, natural 0x82. -/
def devC5 : SanDevice :=
  { drive := 0x81
    is_cdrom := false
    capacity := 2880
    blksize := 512
    priv := { natural_drive := 0x82
              cylinders := 80
              heads := 2
              sectors_per_track := 18
              boot_catalog := 0
              last_status := 0 } }

/-- A registered CD-ROM drive, assigned and natural number 0x80. -/
def devC5cd : SanDevice :=
  { drive := 0x80
    is_cdrom := true
    capacity := 65536
    blksize := 2048
    priv := { natural_drive := 0x80
              cylinders := 0
              heads := 0
              sectors_per_track := 0
              boot_catalog := 19
              last_status := 0x77 } }

/-- A registered hard disk with natural number 0xff (the BIOS Data Area
already reported 0x7f hard disks when it was hooked). -/
def devC5b : SanDevice :=
  { drive := 0x81
    is_cdrom := false
    capacity := 2880
    blksize := 512
    priv := { natural_drive := 0xff
              cylinders := 80
              heads := 2
              sectors_per_track := 18
              boot_catalog := 0
              last_status := 0 } }

/-- A call environment in which every collaborator succeeds. -/
def envOk : CallEnv :=
  { reset_rc := 0, read_rw := rw_ok, write_rw := rw_ok, dap_mem := fun _ => 0,
    catalog_read_rc := 0 }

/-- BIOS counters consistent with their cached copies and no other drives. -/
def biosQuiet : BiosState :=
  { bda_equipment := 0, bda_num_drives := 0, equipment_word := 0, num_drives := 0,
    num_fdds := 0 }

/-- An interrupt-call state addressing drive 0x82 (devC5's natural number)
with a legacy read command. -/
def stC5 : DispState :=
  { regs := { ax := 0x0201, bx := 0, cx := 0x0103, dx := 0x0182, si := 0, di := 0,
              es := 0, ds := 0 }
    flags := { cf := true, ofl := false }
    sandevs := [devC5]
    bios := biosQuiet }

/-- An interrupt-call state addressing drive 0xff (devC5b's natural number)
with the get/terminate CD-ROM emulation status command, while a CD-ROM
drive is registered ahead of devC5b. -/
def stC5x : DispState :=
  { regs := { ax := 0x4b00, bx := 0, cx := 0, dx := 0x00ff, si := 0, di := 0,
              es := 0, ds := 0 }
    flags := { cf := true, ofl := false }
    sandevs := [devC5cd, devC5b]
    bios := biosQuiet }

/-- A hook environment: registration succeeds, the scratch-area allocation
fails, everything else would succeed; a plain 512-byte hard disk. -/
def envC6 : HookEnv :=
  { alloc_ok := true
    register_rc := 0
    malloc_ok := false
    eltorito_read_rc := 0
    eltorito_match := false
    eltorito_sector := 0
    mbr_read_rc := 0
    partitions := []
    is_cdrom := false
    capacity := 2880
    blksize := 512
    init_cylinders := 0
    init_heads := 0
    init_sectors := 0 }

/-- The empty hook state: no drives, quiescent counters, vector not hooked,
no outstanding allocations. -/
def stH0 : HookState :=
  { sandevs := [], bios := biosQuiet, vector_hooked := false, allocs := 0 }

/-- A 1200K floppy image (2400 blocks, the 80/2/15 geometry). -/
def devC7 : SanDevice :=
  { drive := 0x00
    is_cdrom := false
    capacity := 2400
    blksize := 512
    priv := { natural_drive := 0
              cylinders := 0
              heads := 0
              sectors_per_track := 0
              boot_catalog := 0
              last_status := 0 } }

/-- An ACPI table longer than the whole arena. -/
def tabC8 : AcpiTable := { length := 801, bytes := fun _ => 0 }

/-- A hook environment for an optical drive with 2048-byte blocks in which
every collaborator succeeds. -/
def envC10 : HookEnv :=
  { alloc_ok := true
    register_rc := 0
    malloc_ok := true
    eltorito_read_rc := 0
    eltorito_match := true
    eltorito_sector := 19
    mbr_read_rc := 0
    partitions := []
    is_cdrom := true
    capacity := 65536
    blksize := 2048
    init_cylinders := 0
    init_heads := 0
    init_sectors := 0 }

/-! # Theorems -/

/-! ## Shared helper lemmas -/

/-- Strict growth of `A*S + s` in the (A, s) pair when A grows. -/
theorem int13_lba_lt_of_lt {A B S s s' : Nat} (hAB : A < B) (hsS : s ≤ S) (hs1' : 1 ≤ s') :
    A * S + s < B * S + s' := by
  have h1 : A * S + s ≤ A * S + S := Nat.add_le_add_left hsS _
  have h2 : A * S + S = (A + 1) * S := by ring
  have h3 : (A + 1) * S ≤ B * S := Nat.mul_le_mul_right _ (by omega)
  calc A * S + s ≤ (A + 1) * S := h2 ▸ h1
    _ ≤ B * S := h3
    _ < B * S + s' := Nat.lt_add_of_pos_right hs1'

/-- The CHS-to-LBA formula is strictly monotone in lexicographic
(cylinder, head, sector) order over in-range addresses. -/
theorem int13_chs_lba_mono (d : Int13Data) {c h s c' h' s' : Nat}
    (hh : h < d.heads) (hs1 : 1 ≤ s) (hsS : s ≤ d.sectors_per_track) (hs1' : 1 ≤ s')
    (hlex : c < c' ∨ (c = c' ∧ (h < h' ∨ (h = h' ∧ s < s')))) :
    int13_chs_lba d c h s < int13_chs_lba d c' h' s' := by
  unfold int13_chs_lba
  have key : (c * d.heads + h) * d.sectors_per_track + s <
      (c' * d.heads + h') * d.sectors_per_track + s' := by
    have hsplit : (c * d.heads + h < c' * d.heads + h') ∨
        (c * d.heads + h = c' * d.heads + h' ∧ s < s') := by
      rcases hlex with hc | ⟨hceq, hrest⟩
      · left
        calc c * d.heads + h < c * d.heads + d.heads := Nat.add_lt_add_left hh _
          _ = (c + 1) * d.heads := by ring
          _ ≤ c' * d.heads := Nat.mul_le_mul_right _ (by omega)
          _ ≤ c' * d.heads + h' := Nat.le_add_right _ _
      · subst hceq
        rcases hrest with hhlt | ⟨hheq, hslt⟩
        · exact Or.inl (by omega)
        · subst hheq; exact Or.inr ⟨rfl, hslt⟩
    rcases hsplit with hAB | ⟨hAB, hss⟩
    · exact int13_lba_lt_of_lt hAB hsS hs1'
    · rw [hAB]; omega
  set A := (c * d.heads + h) * d.sectors_per_track with hA
  set B := (c' * d.heads + h') * d.sectors_per_track with hB
  omega

/-- In-range legacy read/write issues exactly the request with the
translated LBA, the al count and the es:bx buffer. -/
theorem int13_rw_sectors_in_range (sandev : SanDevice) (regs : Regs)
    (rw : Nat → Nat → Buffer → Int)
    (hblk : sandev.blksize = INT13_BLKSIZE)
    (hc : int13_decode_cylinder regs < sandev.priv.cylinders)
    (hh : int13_decode_head regs < sandev.priv.heads)
    (hs1 : 1 ≤ int13_decode_sector regs)
    (hs2 : int13_decode_sector regs ≤ sandev.priv.sectors_per_track) :
    (int13_rw_sectors sandev regs rw).2 =
      some { lba := int13_chs_lba sandev.priv (int13_decode_cylinder regs)
                      (int13_decode_head regs) (int13_decode_sector regs)
             count := regs.al
             buffer := Buffer.seg (regs.es &&& 0xffff) (regs.bx &&& 0xffff) } := by
  have hblk' : ¬ sandev.blksize ≠ INT13_BLKSIZE := by simp [hblk]
  have hrange : ¬ (int13_decode_cylinder regs ≥ sandev.priv.cylinders ∨
      int13_decode_head regs ≥ sandev.priv.heads ∨
      int13_decode_sector regs < 1 ∨
      int13_decode_sector regs > sandev.priv.sectors_per_track) := by
    push_neg
    exact ⟨hc, hh, hs1, hs2⟩
  unfold int13_rw_sectors
  rw [if_neg hblk']
  simp only []
  rw [if_neg hrange]
  split <;> rfl

/-! ## C1 -/

/-- C1: for every legacy read or write call on a drive whose block size is
512, with decoded cylinder < configured cylinders, head < configured heads
and 1 ≤ sector ≤ sectors-per-track, the logical block address passed to the
block-device read/write is exactly
((cylinder × heads + head) × sectors_per_track) + sector − 1, and this LBA
is strictly monotonically increasing in lexicographic (cylinder, head,
sector) order over in-range addresses. -/
theorem int13_rw_sectors_chs_lba (sandev : SanDevice) (regs : Regs)
    (rw : Nat → Nat → Buffer → Int)
    (hblk : sandev.blksize = INT13_BLKSIZE)
    (hc : int13_decode_cylinder regs < sandev.priv.cylinders)
    (hh : int13_decode_head regs < sandev.priv.heads)
    (hs1 : 1 ≤ int13_decode_sector regs)
    (hs2 : int13_decode_sector regs ≤ sandev.priv.sectors_per_track) :
    (∃ req, (int13_rw_sectors sandev regs rw).2 = some req ∧
        req.lba = ((int13_decode_cylinder regs * sandev.priv.heads +
                    int13_decode_head regs) * sandev.priv.sectors_per_track) +
                  int13_decode_sector regs - 1) ∧
    (∀ c h s c' h' s',
        c < sandev.priv.cylinders → h < sandev.priv.heads →
        1 ≤ s → s ≤ sandev.priv.sectors_per_track →
        c' < sandev.priv.cylinders → h' < sandev.priv.heads →
        1 ≤ s' → s' ≤ sandev.priv.sectors_per_track →
        (c < c' ∨ (c = c' ∧ (h < h' ∨ (h = h' ∧ s < s')))) →
        int13_chs_lba sandev.priv c h s < int13_chs_lba sandev.priv c' h' s') := by
  constructor
  · refine ⟨_, int13_rw_sectors_in_range sandev regs rw hblk hc hh hs1 hs2, rfl⟩
  · intro c h s c' h' s' _ hh' hs1' hs2' _ _ hs1'' _ hlex
    exact int13_chs_lba_mono sandev.priv hh' hs1' hs2' hs1'' hlex

/-- C1 witness: evaluated on a concrete drive (geometry 100/16/63) and a
concrete call (C/H/S 1/1/3), whose LBA is (1·16+1)·63+3−1 = 1073. -/
theorem int13_rw_sectors_chs_lba_witness :
    ∃ req, (int13_rw_sectors devC1 regsC1 rw_ok).2 = some req ∧
      req.lba = ((int13_decode_cylinder regsC1 * devC1.priv.heads +
                  int13_decode_head regsC1) * devC1.priv.sectors_per_track) +
                int13_decode_sector regsC1 - 1 :=
  (int13_rw_sectors_chs_lba devC1 regsC1 rw_ok (by decide) (by decide) (by decide)
    (by decide) (by decide)).1

/-! ## C2 -/

/-- C2: for every legacy read or write call whose decoded cylinder/head/
sector lies outside the drive's configured geometry, the call returns the
Invalid-Request status and no block-device read or write is issued. -/
theorem int13_rw_sectors_out_of_range (sandev : SanDevice) (regs : Regs)
    (rw : Nat → Nat → Buffer → Int)
    (hout : int13_decode_cylinder regs ≥ sandev.priv.cylinders ∨
            int13_decode_head regs ≥ sandev.priv.heads ∨
            int13_decode_sector regs < 1 ∨
            int13_decode_sector regs > sandev.priv.sectors_per_track) :
    int13_rw_sectors sandev regs rw = (-INT13_STATUS_INVALID, none) := by
  unfold int13_rw_sectors
  by_cases hblk : sandev.blksize ≠ INT13_BLKSIZE
  · rw [if_pos hblk]
  · rw [if_neg hblk]
    simp only []
    rw [if_pos hout]

/-- C2 witness: evaluated on the concrete drive and a call with sector
number 0. -/
theorem int13_rw_sectors_out_of_range_witness :
    int13_rw_sectors devC1 regsC2 rw_ok = (-INT13_STATUS_INVALID, none) :=
  int13_rw_sectors_out_of_range devC1 regsC2 rw_ok (by decide)

/-! ## Extended read/write helpers -/

/-- Reduction of `int13_extended_rw` past its two validity guards. -/
theorem int13_extended_rw_body (sandev : SanDevice) (mem : Nat → Nat)
    (rw : Nat → Nat → Buffer → Int)
    (hfdd : int13_is_fdd sandev = false)
    (hbuf : ¬ mem 0 % 256 < int13_disk_address_buffer_phys) :
    int13_extended_rw sandev mem rw =
      (match int13_ext_count (int13_decode_addr mem (mem 0 % 256)) with
       | none => { status := -INT13_STATUS_INVALID, request := none,
                   wroteZeroCount := false }
       | some count =>
           let addr := int13_decode_addr mem (mem 0 % 256)
           let buffer := int13_ext_buffer addr
           let req : IoReq := { lba := addr.lba, count := count, buffer := buffer }
           if rw addr.lba count buffer ≠ 0 then
             { status := -INT13_STATUS_READ_ERROR, request := some req,
               wroteZeroCount := true }
           else
             { status := 0, request := some req, wroteZeroCount := false }) := by
  unfold int13_extended_rw
  rw [if_neg (by simp [hfdd])]
  simp only []
  rw [if_neg hbuf]

/-- A little-endian read over a zero range is zero. -/
theorem int13_read_le_zero (b : Nat → Nat) :
    ∀ n off, (∀ k, k < n → b (off + k) = 0) → int13_read_le b off n = 0 := by
  intro n
  induction n with
  | zero => intro off _; rfl
  | succ m ih =>
      intro off h
      have h0 : b off = 0 := by
        have := h 0 (Nat.succ_pos m)
        simpa using this
      have hrest : int13_read_le b (off + 1) m = 0 := by
        apply ih
        intro k hk
        have := h (k + 1) (by omega)
        simpa [Nat.add_assoc, Nat.add_comm, Nat.add_left_comm] using this
      simp [int13_read_le, h0, hrest]

/-! ## C3 -/

/-- C3: for every extended read or write call on a fixed-disk drive with a
valid descriptor size, the transfer count is decoded as: a count byte
≤ 0x7f is the count itself; a count byte of exactly 0xff takes the count
from the long-count field; any count byte in 0x80..0xfe yields
Invalid-Request with no block I/O issued. -/
theorem int13_extended_rw_count_decode (sandev : SanDevice) (mem : Nat → Nat)
    (rw : Nat → Nat → Buffer → Int)
    (hfdd : int13_is_fdd sandev = false)
    (hbuf : int13_disk_address_buffer_phys ≤ mem 0 % 256) :
    ((int13_decode_addr mem (mem 0 % 256)).count ≤ 0x7f →
        ∃ req, (int13_extended_rw sandev mem rw).request = some req ∧
          req.count = (int13_decode_addr mem (mem 0 % 256)).count) ∧
    ((int13_decode_addr mem (mem 0 % 256)).count = 0xff →
        ∃ req, (int13_extended_rw sandev mem rw).request = some req ∧
          req.count = (int13_decode_addr mem (mem 0 % 256)).long_count) ∧
    (0x80 ≤ (int13_decode_addr mem (mem 0 % 256)).count →
        (int13_decode_addr mem (mem 0 % 256)).count ≤ 0xfe →
        int13_extended_rw sandev mem rw =
          { status := -INT13_STATUS_INVALID, request := none,
            wroteZeroCount := false }) := by
  have hbody := int13_extended_rw_body sandev mem rw hfdd (by omega)
  refine ⟨?_, ?_, ?_⟩
  · intro hcnt
    rw [hbody]
    have hcount : int13_ext_count (int13_decode_addr mem (mem 0 % 256)) =
        some (int13_decode_addr mem (mem 0 % 256)).count := by
      unfold int13_ext_count
      rw [if_pos hcnt]
    rw [hcount]
    simp only []
    split
    · exact ⟨_, rfl, rfl⟩
    · exact ⟨_, rfl, rfl⟩
  · intro hcnt
    rw [hbody]
    have hcount : int13_ext_count (int13_decode_addr mem (mem 0 % 256)) =
        some (int13_decode_addr mem (mem 0 % 256)).long_count := by
      unfold int13_ext_count
      rw [if_neg (by omega), if_pos hcnt]
    rw [hcount]
    simp only []
    split
    · exact ⟨_, rfl, rfl⟩
    · exact ⟨_, rfl, rfl⟩
  · intro h1 h2
    rw [hbody]
    have hcount : int13_ext_count (int13_decode_addr mem (mem 0 % 256)) = none := by
      unfold int13_ext_count
      rw [if_neg (by omega), if_neg (by omega)]
    rw [hcount]

/-- C3 witness: a packet with declared size 16 and count byte 5 issues a
request for 5 blocks. -/
theorem int13_extended_rw_count_decode_witness :
    ∃ req, (int13_extended_rw devC1 memC3 rw_ok).request = some req ∧
      req.count = (int13_decode_addr memC3 (memC3 0 % 256)).count :=
  (int13_extended_rw_count_decode devC1 memC3 rw_ok (by decide) (by decide)).1
    (by decide)

/-- When the count byte is invalid, `int13_extended_rw` returns
Invalid-Request with no request. -/
theorem int13_extended_rw_none (sandev : SanDevice) (mem : Nat → Nat)
    (rw : Nat → Nat → Buffer → Int)
    (hfdd : int13_is_fdd sandev = false)
    (hbuf : ¬ mem 0 % 256 < int13_disk_address_buffer_phys)
    (hc : int13_ext_count (int13_decode_addr mem (mem 0 % 256)) = none) :
    int13_extended_rw sandev mem rw =
      { status := -INT13_STATUS_INVALID, request := none, wroteZeroCount := false } := by
  rw [int13_extended_rw_body sandev mem rw hfdd hbuf, hc]

/-- When the count decodes, `int13_extended_rw` issues exactly one request
with the packet's LBA, the decoded count and the decoded buffer. -/
theorem int13_extended_rw_req (sandev : SanDevice) (mem : Nat → Nat)
    (rw : Nat → Nat → Buffer → Int)
    (hfdd : int13_is_fdd sandev = false)
    (hbuf : ¬ mem 0 % 256 < int13_disk_address_buffer_phys)
    (count : Nat)
    (hc : int13_ext_count (int13_decode_addr mem (mem 0 % 256)) = some count) :
    (int13_extended_rw sandev mem rw).request =
      some { lba := (int13_decode_addr mem (mem 0 % 256)).lba
             count := count
             buffer := int13_ext_buffer (int13_decode_addr mem (mem 0 % 256)) } := by
  rw [int13_extended_rw_body sandev mem rw hfdd hbuf, hc]
  simp only []
  split <;> rfl

/-! ## C4 -/

/-- C4 counterexample: a packet with count byte 0xff and segment:offset
= 1234:5678 (≠ ffff:ffff).  The claim as stated demands that "any other
segment:offset pair is used directly", but the code routes the request to
the physical buffer pointer 0xdeadbeef because the count byte is 0xff. -/
theorem int13_extended_rw_buffer_sentinel_cex :
    (int13_decode_addr memC4 (memC4 0 % 256)).buffer_segment = 0x1234 ∧
    (int13_decode_addr memC4 (memC4 0 % 256)).buffer_offset = 0x5678 ∧
    (∃ req, (int13_extended_rw devC1 memC4 rw_ok).request = some req ∧
        req.buffer = Buffer.phys 0xdeadbeef ∧
        req.buffer ≠ Buffer.seg 0x1234 0x5678) := by
  refine ⟨by decide, by decide, ?_⟩
  refine ⟨_, rfl, by decide, by decide⟩

/-- C4 (amended): the data buffer is decoded as: if the count byte is 0xff,
or the descriptor's segment and offset both equal 0xffff, the 64-bit
physical-pointer field is used; otherwise the segment:offset pair is used
directly.  Every issued request uses exactly this decode. -/
theorem int13_extended_rw_buffer_sentinel (sandev : SanDevice) (mem : Nat → Nat)
    (rw : Nat → Nat → Buffer → Int)
    (hfdd : int13_is_fdd sandev = false)
    (hbuf : int13_disk_address_buffer_phys ≤ mem 0 % 256) :
    (((int13_decode_addr mem (mem 0 % 256)).count = 0xff ∨
      ((int13_decode_addr mem (mem 0 % 256)).buffer_segment = 0xffff ∧
       (int13_decode_addr mem (mem 0 % 256)).buffer_offset = 0xffff)) →
        int13_ext_buffer (int13_decode_addr mem (mem 0 % 256)) =
          Buffer.phys (int13_decode_addr mem (mem 0 % 256)).buffer_phys) ∧
    ((int13_decode_addr mem (mem 0 % 256)).count ≠ 0xff →
     ¬((int13_decode_addr mem (mem 0 % 256)).buffer_segment = 0xffff ∧
       (int13_decode_addr mem (mem 0 % 256)).buffer_offset = 0xffff) →
        int13_ext_buffer (int13_decode_addr mem (mem 0 % 256)) =
          Buffer.seg (int13_decode_addr mem (mem 0 % 256)).buffer_segment
            (int13_decode_addr mem (mem 0 % 256)).buffer_offset) ∧
    (∀ req, (int13_extended_rw sandev mem rw).request = some req →
        req.buffer = int13_ext_buffer (int13_decode_addr mem (mem 0 % 256))) := by
  have hbody := int13_extended_rw_body sandev mem rw hfdd (by omega)
  refine ⟨?_, ?_, ?_⟩
  · intro hsel
    unfold int13_ext_buffer
    rw [if_pos hsel]
  · intro h1 h2
    unfold int13_ext_buffer
    rw [if_neg (by tauto)]
  · intro req hreq
    rcases hc : int13_ext_count (int13_decode_addr mem (mem 0 % 256)) with _ | count
    · rw [int13_extended_rw_none sandev mem rw hfdd (by omega) hc] at hreq
      exact absurd hreq (by simp)
    · rw [int13_extended_rw_req sandev mem rw hfdd (by omega) count hc] at hreq
      injection hreq with h
      rw [← h]

/-- C4 witness (amended claim): the counterexample packet's buffer decodes
through the physical-pointer branch. -/
theorem int13_extended_rw_buffer_sentinel_witness :
    int13_ext_buffer (int13_decode_addr memC4 (memC4 0 % 256)) =
      Buffer.phys (int13_decode_addr memC4 (memC4 0 % 256)).buffer_phys :=
  (int13_extended_rw_buffer_sentinel devC1 memC4 rw_ok (by decide) (by decide)).1
    (Or.inl (by decide))

/-! ## C9 -/

/-- C9 counterexample: a packet with declared size 20 (≥ 16, < 32,
"too small to include the long-count field") and count byte 0xff.  The
transfer count is indeed 0, but the physical buffer address is 0xdeadbeef,
not 0 as the claim states: the physical-buffer field starts at offset 16
< 20, so its first four bytes come from the caller, not from the zero
fill. -/
theorem int13_extended_rw_zero_fill_cex :
    memC9 0 % 256 = 20 ∧
    (int13_decode_addr memC9 (memC9 0 % 256)).count = 0xff ∧
    (∃ req, (int13_extended_rw devC1 memC9 rw_ok).request = some req ∧
        req.count = 0 ∧ req.buffer = Buffer.phys 0xdeadbeef) ∧
    Buffer.phys (0xdeadbeef : Nat) ≠ Buffer.phys 0 := by
  refine ⟨by decide, by decide, ⟨_, rfl, by decide, by decide⟩, by decide⟩

/-- C9 (amended): for every extended read or write call on a fixed-disk
drive whose declared descriptor size is at least the physical-buffer offset
(16) but smaller than the full descriptor (32), every byte of the local
descriptor at an offset at or beyond the declared size reads as zero.  In
particular a count byte of 0xff with a declared size that does not reach
the long-count field (≤ 24) yields a transfer count of 0 — the I/O is
issued, not rejected as Invalid-Request — and the physical buffer address
is 0 when the declared size is exactly the physical-buffer offset. -/
theorem int13_extended_rw_zero_fill (sandev : SanDevice) (mem : Nat → Nat)
    (rw : Nat → Nat → Buffer → Int)
    (hfdd : int13_is_fdd sandev = false)
    (hlo : int13_disk_address_buffer_phys ≤ mem 0 % 256)
    (hhi : mem 0 % 256 < int13_disk_address_size) :
    (∀ i, mem 0 % 256 ≤ i → int13_addr_byte mem (mem 0 % 256) i = 0) ∧
    ((int13_decode_addr mem (mem 0 % 256)).count = 0xff →
        mem 0 % 256 ≤ int13_disk_address_long_count →
        ∃ req, (int13_extended_rw sandev mem rw).request = some req ∧
          req.count = 0 ∧
          (int13_extended_rw sandev mem rw).status ≠ -INT13_STATUS_INVALID) ∧
    ((int13_decode_addr mem (mem 0 % 256)).count = 0xff →
        mem 0 % 256 = int13_disk_address_buffer_phys →
        ∃ req, (int13_extended_rw sandev mem rw).request = some req ∧
          req.buffer = Buffer.phys 0) := by
  have hzero : ∀ i, mem 0 % 256 ≤ i → int13_addr_byte mem (mem 0 % 256) i = 0 := by
    intro i hi
    unfold int13_addr_byte
    rw [if_neg (by omega)]
  refine ⟨hzero, ?_, ?_⟩
  · intro hcnt hsz
    have hlc : (int13_decode_addr mem (mem 0 % 256)).long_count = 0 := by
      show int13_read_le (int13_addr_byte mem (mem 0 % 256)) 24 4 = 0
      apply int13_read_le_zero
      intro k _
      apply hzero
      have : int13_disk_address_long_count = 24 := rfl
      omega
    have hc : int13_ext_count (int13_decode_addr mem (mem 0 % 256)) =
        some 0 := by
      unfold int13_ext_count
      rw [if_neg (by omega), if_pos hcnt, hlc]
    refine ⟨_, int13_extended_rw_req sandev mem rw hfdd (by omega) 0 hc, rfl, ?_⟩
    rw [int13_extended_rw_body sandev mem rw hfdd (by omega), hc]
    simp only []
    split
    · show (-INT13_STATUS_READ_ERROR : Int) ≠ -INT13_STATUS_INVALID
      decide
    · show (0 : Int) ≠ -INT13_STATUS_INVALID
      decide
  · intro hcnt hsz
    have hphys : (int13_decode_addr mem (mem 0 % 256)).buffer_phys = 0 := by
      show int13_read_le (int13_addr_byte mem (mem 0 % 256)) 16 8 = 0
      apply int13_read_le_zero
      intro k _
      apply hzero
      have : int13_disk_address_buffer_phys = 16 := rfl
      omega
    have hc : int13_ext_count (int13_decode_addr mem (mem 0 % 256)) =
        some (int13_decode_addr mem (mem 0 % 256)).long_count := by
      unfold int13_ext_count
      rw [if_neg (by omega), if_pos hcnt]
    refine ⟨_, int13_extended_rw_req sandev mem rw hfdd (by omega) _ hc, ?_⟩
    have hbufsel : int13_ext_buffer (int13_decode_addr mem (mem 0 % 256)) =
        Buffer.phys (int13_decode_addr mem (mem 0 % 256)).buffer_phys := by
      unfold int13_ext_buffer
      rw [if_pos (Or.inl hcnt)]
    rw [hbufsel, hphys]

/-- C9 witness (amended claim): declared size exactly 16 with count byte
0xff and nonzero caller bytes beyond the declared size gives physical
buffer address 0. -/
theorem int13_extended_rw_zero_fill_witness :
    ∃ req, (int13_extended_rw devC1 memC9b rw_ok).request = some req ∧
      req.buffer = Buffer.phys 0 :=
  (int13_extended_rw_zero_fill devC1 memC9b rw_ok (by decide) (by decide)
    (by decide)).2.2 (by decide) (by decide)

/-! ## C7 -/

/-- C7: floppy geometry inference evaluates the table scan on the (32-bit)
total block count; every geometry entry whose cylinders×heads×sectors
equals the block count yields exactly that entry's heads and
sectors-per-track; a block count matching no entry yields heads = 2 and
sectors-per-track = 18; and the function never returns an error. -/
theorem int13_guess_geometry_fdd_table (sandev : SanDevice) :
    int13_guess_geometry_fdd sandev =
      Except.ok (int13_fdd_find (sandev.capacity % 4294967296)) ∧
    (∀ g ∈ int13_fdd_geometries,
        sandev.capacity % 4294967296 = g.1 * g.2.1 * g.2.2 →
        int13_guess_geometry_fdd sandev = Except.ok (g.2.1, g.2.2)) ∧
    ((∀ g ∈ int13_fdd_geometries,
        g.1 * g.2.1 * g.2.2 ≠ sandev.capacity % 4294967296) →
        int13_guess_geometry_fdd sandev = Except.ok (2, 18)) ∧
    (∃ hs, int13_guess_geometry_fdd sandev = Except.ok hs) := by
  have htable : ∀ g ∈ int13_fdd_geometries,
      int13_fdd_find (g.1 * g.2.1 * g.2.2) = (g.2.1, g.2.2) := by decide
  refine ⟨rfl, ?_, ?_, ⟨_, rfl⟩⟩
  · intro g hg hcap
    unfold int13_guess_geometry_fdd
    rw [hcap]
    exact congrArg Except.ok (htable g hg)
  · intro hnone
    unfold int13_guess_geometry_fdd int13_fdd_find
    have hfind : int13_fdd_geometries.find?
        (fun g => g.1 * g.2.1 * g.2.2 == sandev.capacity % 4294967296) = none := by
      rw [List.find?_eq_none]
      intro g hg
      simpa using hnone g hg
    rw [hfind]

/-- C7 witness: a 2400-block image matches the 80/2/15 entry. -/
theorem int13_guess_geometry_fdd_table_witness :
    int13_guess_geometry_fdd devC7 = Except.ok (2, 15) :=
  (int13_guess_geometry_fdd_table devC7).2.1 (80, 2, 15) (by decide) (by decide)

/-! ## C8 -/

/-- Within one description pass the used-length cursor stays a multiple of
the 16-byte alignment. -/
theorem xbftab_used_aligned {s : Xbftab} (hs : XbftabReachable s) :
    s.used % XBFTAB_ALIGN = 0 := by
  induction hs with
  | init => rfl
  | step t s' _ ih =>
      unfold int13_install
      dsimp only
      split
      · exact ih
      · simp only []
        exact Nat.mul_mod_left _ _

/-- C8: starting from the cleared arena, the used-length cursor is always a
multiple of 16 and never decreases; an installation whose table length
exceeds the remaining space of the 768-byte arena fails with
Resource-Exhausted (-ENOSPC) and leaves the cursor, the arena bytes and
hence all previously installed tables unchanged, while a successful
installation leaves every byte below the old cursor unchanged and advances
the cursor by the table length rounded up to the 16-byte boundary. -/
theorem int13_install_arena (s : Xbftab) (t : AcpiTable) (hs : XbftabReachable s) :
    s.used % XBFTAB_ALIGN = 0 ∧
    (int13_install t s).2.used % XBFTAB_ALIGN = 0 ∧
    s.used ≤ (int13_install t s).2.used ∧
    (t.length > XBFTAB_SIZE - s.used → int13_install t s = (-ENOSPC, s)) ∧
    (t.length ≤ XBFTAB_SIZE - s.used →
        (int13_install t s).1 = 0 ∧
        (int13_install t s).2.used =
          ((s.used + t.length + XBFTAB_ALIGN - 1) / XBFTAB_ALIGN) * XBFTAB_ALIGN ∧
        (∀ i, i < s.used → (int13_install t s).2.mem i = s.mem i)) := by
  refine ⟨xbftab_used_aligned hs, xbftab_used_aligned (XbftabReachable.step t s hs),
    ?_, ?_, ?_⟩
  · unfold int13_install
    dsimp only
    split
    · exact Nat.le_refl _
    · simp only [XBFTAB_ALIGN]
      omega
  · intro hlen
    unfold int13_install
    rw [if_pos hlen]
  · intro hlen
    unfold int13_install
    rw [if_neg (by omega)]
    refine ⟨rfl, rfl, ?_⟩
    intro i hi
    simp only []
    rw [if_neg (by omega)]

/-- C8 witness: installing an 801-byte table into the cleared arena fails
with -ENOSPC and leaves the arena untouched. -/
theorem int13_install_arena_witness :
    int13_install tabC8 xbftab_init = (-ENOSPC, xbftab_init) :=
  (int13_install_arena xbftab_init tabC8 XbftabReachable.init).2.2.2.1 (by decide)

/-! ## C5 -/

/-- The resolution loop remaps a natural-number access and stops, provided
no drive matches the assigned number, the first natural-number match is `m`,
and no earlier drive captures the call through the CD-ROM wildcard. -/
theorem int13_loop_remap (env : CallEnv) (bios : BiosState)
    (command bios_drive : Nat) (regs : Regs) (flags : Flags) :
    ∀ (pre : List SanDevice) (m : SanDevice) (post : List SanDevice),
    (∀ d ∈ pre ++ m :: post, d.drive ≠ bios_drive) →
    m.priv.natural_drive = bios_drive →
    (∀ d ∈ pre, d.priv.natural_drive ≠ bios_drive) →
    (∀ d ∈ pre, ¬((bios_drive &&& 0x7f) = 0x7f ∧
        command = INT13_CDROM_STATUS_TERMINATE ∧ d.is_cdrom = true)) →
    int13_loop env bios command bios_drive regs flags (pre ++ m :: post) =
      (regs.setDl m.drive, flags, pre ++ m :: post) := by
  intro pre
  induction pre with
  | nil =>
      intro m post hdrive hnat _ _
      have hm : m.drive ≠ bios_drive := hdrive m (by simp)
      show int13_loop env bios command bios_drive regs flags (m :: post) = _
      unfold int13_loop
      rw [if_neg (fun h => hm h.symm), if_pos hnat.symm]
      rfl
  | cons d pre' ih =>
      intro m post hdrive hnat hfirst hnocapture
      have hd : d.drive ≠ bios_drive := hdrive d (by simp)
      have hdn : d.priv.natural_drive ≠ bios_drive := hfirst d (by simp)
      have hdc := hnocapture d (by simp)
      have hrec := ih m post (fun x hx => hdrive x (by simp [hx]))
        hnat (fun x hx => hfirst x (by simp [hx]))
        (fun x hx => hnocapture x (by simp [hx]))
      show int13_loop env bios command bios_drive regs flags (d :: (pre' ++ m :: post)) = _
      unfold int13_loop
      rw [if_neg (fun h => hd h.symm), if_neg (fun h => hdn h.symm), if_neg hdc]
      rw [hrec]
      rfl

/-- C5 (amended): for every dispatched call whose drive number is not any
registered drive's assigned number but equals a registered drive's natural
drive number, provided the call is not captured first by the CD-ROM
wildcard path (drive number with all low seven bits set, command =
get/terminate CD-ROM emulation status, and a CD-ROM drive registered ahead
of the natural-number match), the call's drive-number register is rewritten
to the assigned number of the first natural-number match and the handler
returns immediately: no command is dispatched, no last-status is stored,
and no register other than dl and no drive state changes in that call. -/
theorem int13_natural_remap (env : CallEnv) (s : DispState)
    (pre : List SanDevice) (m : SanDevice) (post : List SanDevice)
    (hsplit : s.sandevs = pre ++ m :: post)
    (hassigned : ∀ d ∈ s.sandevs, d.drive ≠ s.regs.dl)
    (hnat : m.priv.natural_drive = s.regs.dl)
    (hfirst : ∀ d ∈ pre, d.priv.natural_drive ≠ s.regs.dl)
    (hnocapture : ∀ d ∈ pre,
        ¬((s.regs.dl &&& 0x7f) = 0x7f ∧ s.regs.ah = INT13_CDROM_STATUS_TERMINATE ∧
          d.is_cdrom = true)) :
    (int13_call env s).regs = s.regs.setDl m.drive ∧
    (int13_call env s).sandevs = s.sandevs ∧
    (int13_call env s).flags = s.flags := by
  unfold int13_call
  rw [hsplit]
  dsimp only
  rw [int13_loop_remap env (int13_check_num_drives (pre ++ m :: post) s.bios)
    s.regs.ah s.regs.dl s.regs s.flags pre m post
    (by rw [← hsplit]; exact hassigned) hnat hfirst hnocapture]
  exact ⟨rfl, rfl, rfl⟩

/-- C5 witness: a call to drive number 0x82, the natural number of the
registered drive 0x81, is rewritten to 0x81 and changes nothing else. -/
theorem int13_natural_remap_witness :
    (int13_call envOk stC5).regs = stC5.regs.setDl devC5.drive ∧
    (int13_call envOk stC5).sandevs = stC5.sandevs ∧
    (int13_call envOk stC5).flags = stC5.flags :=
  int13_natural_remap envOk stC5 [] devC5 [] rfl (by decide) (by decide)
    (by decide) (by decide)

/-- C5 counterexample: drive number 0xff is no registered drive's assigned
number and is drive 0x81's natural number, yet for the get/terminate
CD-ROM emulation status command the registered CD-ROM drive listed first
captures the wildcard: the command is dispatched against it (its last
status changes) and dl is not rewritten to 0x81. -/
theorem int13_natural_remap_cex :
    stC5x.regs.dl = devC5b.priv.natural_drive ∧
    (∀ d ∈ stC5x.sandevs, d.drive ≠ stC5x.regs.dl) ∧
    (int13_call envOk stC5x).regs.dl = 0xff ∧
    (int13_call envOk stC5x).regs.dl ≠ devC5b.drive ∧
    (int13_call envOk stC5x).sandevs ≠ stC5x.sandevs := by decide

/-! ## C6 -/

/-- C6 (code bug): when the scratch-area allocation fails after a
successful registration, `int13_hook` does unwind (the registry is restored,
the allocation count returns to its old value, the interrupt vector is not
installed) but returns 0 — the stale `rc` left by `register_sandev` — rather
than a negative error code, contradicting its own contract
"@ret drive Drive number, or negative error": the caller sees a successful
hook of drive 0. -/
theorem int13_hook_scratch_failure_returns_zero :
    (int13_hook envC6 0x80 stH0).1 = 0 ∧
    ¬ (int13_hook envC6 0x80 stH0).1 < 0 ∧
    (int13_hook envC6 0x80 stH0).2.sandevs = stH0.sandevs ∧
    (int13_hook envC6 0x80 stH0).2.vector_hooked = false ∧
    (int13_hook envC6 0x80 stH0).2.allocs = stH0.allocs := by
  decide

/-! ## C10 -/

/-- C10: geometry inference runs at drive-hook time only for a block size of
512; for a drive with any other block size (optical media included), the
cylinder, head and sectors-per-track fields stay exactly as explicitly
configured (zero if unconfigured) and — all collaborators succeeding — the
hook still succeeds, returning the drive number. -/
theorem int13_hook_nondefault_blksize (env : HookEnv) (drive0 : Nat) (st : HookState)
    (halloc : env.alloc_ok = true)
    (hreg : env.register_rc = 0)
    (hmalloc : env.malloc_ok = true)
    (helt : env.eltorito_read_rc = 0)
    (hblk : env.blksize ≠ INT13_BLKSIZE) :
    ∃ dev, (int13_hook env drive0 st).2.sandevs = dev :: st.sandevs ∧
      dev.priv.cylinders = env.init_cylinders ∧
      dev.priv.heads = env.init_heads ∧
      dev.priv.sectors_per_track = env.init_sectors ∧
      (int13_hook env drive0 st).1 = Int.ofNat dev.drive ∧
      0 ≤ (int13_hook env drive0 st).1 := by
  cases hcd : env.is_cdrom with
  | false =>
      simp [int13_hook, halloc, hreg, hmalloc, hblk, hcd]
      split
      all_goals try split
      all_goals exact Int.natCast_nonneg _
  | true =>
      cases hmatch : env.eltorito_match with
      | false =>
          simp [int13_hook, int13_parse_eltorito, halloc, hreg, hmalloc,
            hblk, hcd, hmatch, helt]
          split
          all_goals try split
          all_goals exact Int.natCast_nonneg _
      | true =>
          simp [int13_hook, int13_parse_eltorito, halloc, hreg, hmalloc,
            hblk, hcd, hmatch, helt]
          split
          all_goals try split
          all_goals exact Int.natCast_nonneg _

/-- C10 witness: hooking a CD-ROM with 2048-byte blocks succeeds and leaves
the (unconfigured, hence zero) geometry untouched. -/
theorem int13_hook_nondefault_blksize_witness :
    ∃ dev, (int13_hook envC10 0x80 stH0).2.sandevs = dev :: stH0.sandevs ∧
      dev.priv.cylinders = envC10.init_cylinders ∧
      dev.priv.heads = envC10.init_heads ∧
      dev.priv.sectors_per_track = envC10.init_sectors ∧
      (int13_hook envC10 0x80 stH0).1 = Int.ofNat dev.drive ∧
      0 ≤ (int13_hook envC10 0x80 stH0).1 :=
  int13_hook_nondefault_blksize envC10 0x80 stH0 (by decide) (by decide) (by decide)
    (by decide) (by decide)

end Int13
